import Mathlib

/-!
Verification of the receipt-card zigzag mask generator of the
`receipt-ocr` frontend.

The embedding models JavaScript numbers by exact rationals `ℚ`.  The only
operation of the generator that can produce a non-finite JavaScript number
(`NaN` or `Infinity`) is division by zero, so division is embedded as
`jsDiv : ℚ → ℚ → Option ℚ` returning `none` exactly when the JS result
would be non-finite; the whole pipeline is `Option`-valued and `isSome`
states that every produced coordinate is a finite number.

A polygon `points` attribute string `"x0,y0 x1,y1 …"` is modelled by the
list of its `"x,y"` coordinate tokens, each token being the pair
`(x, y) : ℚ × ℚ`; the number of tokens of the string is the length of the
list.
-/

/-- JavaScript division `a / b`, `none` when the result is not a finite
number (`b = 0` gives `Infinity`, `-Infinity` or `NaN`). -/
def jsDiv (a b : ℚ) : Option ℚ :=
  if b = 0 then none else some (a / b)

/-- JavaScript `Math.round`: nearest integer, ties toward `+∞`. -/
def jsRound (q : ℚ) : ℤ :=
  (q + 1 / 2).floor

/-- JavaScript `Math.max` on two finite numbers. -/
def jsMax (a b : ℤ) : ℤ :=
  if a ≤ b then b else a

/-- Source expression `r % 2 === 0 ? r : r + 1`: round an integer up to the
nearest even integer. -/
def evenUp (r : ℤ) : ℤ :=
  if r % 2 = 0 then r else r + 1

namespace ReceiptCard

/-- Default value of the `toothSize` prop in `Common/ReceiptCard.tsx`. -/
def toothSizeDefault : ℚ := 10

/-- Default value of the `toothHeight` prop in `Common/ReceiptCard.tsx`. -/
def toothHeightDefault : ℚ := 3

/-- Source: `const rawTeeth = width > 0 ? Math.max(4, Math.round(width / toothSize)) : 20;` -/
def rawTeeth (width toothSize : ℚ) : Option ℤ :=
  if 0 < width then (jsDiv width toothSize).map (fun q => jsMax 4 (jsRound q))
  else some 20

/-- Source: `const teeth = rawTeeth % 2 === 0 ? rawTeeth : rawTeeth + 1;` -/
def teeth (width toothSize : ℚ) : Option ℤ :=
  (rawTeeth width toothSize).map evenUp

/-- Source: `const numPoints = teeth * 2 + 1;` -/
def numPoints (width toothSize : ℚ) : Option ℤ :=
  (teeth width toothSize).map (fun t => t * 2 + 1)

/-- Source: `const spacing = width / (numPoints - 1);` -/
def spacing (width toothSize : ℚ) : Option ℚ :=
  (numPoints width toothSize).bind (fun n => jsDiv width ((n : ℚ) - 1))

/-- The `top` zigzag samples:
`Array.from({length: numPoints}, (_, i) => ...)` with
`x = i * spacing` and `y = i % 2 === 0 ? toothHeight : 0`. -/
def topPoints (width toothSize toothHeight : ℚ) : Option (List (ℚ × ℚ)) :=
  (numPoints width toothSize).bind fun n =>
  (spacing width toothSize).map fun s =>
    (List.range n.toNat).map fun i : ℕ =>
      ((i : ℚ) * s, if i % 2 = 0 then toothHeight else 0)

/-- The `bottom` zigzag samples: `x = width - i * spacing` and
`y = i % 2 === 0 ? height - toothHeight : height`. -/
def bottomPoints (width height toothSize toothHeight : ℚ) :
    Option (List (ℚ × ℚ)) :=
  (numPoints width toothSize).bind fun n =>
  (spacing width toothSize).map fun s =>
    (List.range n.toNat).map fun i : ℕ =>
      (width - (i : ℚ) * s, if i % 2 = 0 then height - toothHeight else height)

/-- The token sequence of
``const points = `0,0 ${top} ${width},0 ${width},${height} ${bottom} 0,${height}`;``. -/
def points (width height toothSize toothHeight : ℚ) :
    Option (List (ℚ × ℚ)) :=
  (topPoints width toothSize toothHeight).bind fun top =>
  (bottomPoints width height toothSize toothHeight).map fun bottom =>
    (0, 0) :: (top ++ [(width, 0), (width, height)] ++ bottom ++ [(0, height)])

/-- The mask: the polygon wrapped in a data URI when
`width > 0 && height > 0`, `undefined` otherwise.  Modelled by its polygon
payload; `none` = no mask applied. -/
def mask (width height toothSize toothHeight : ℚ) :
    Option (List (ℚ × ℚ)) :=
  if 0 < width ∧ 0 < height then points width height toothSize toothHeight
  else none

end ReceiptCard

/-! The copy of the receipt-card generator embedded in the sidebar
(`Sidebar/User.tsx`), translated independently of the canonical one. -/
namespace SidebarUser

/-- Default value of the `toothSize` prop in `Sidebar/User.tsx`. -/
def toothSizeDefault : ℚ := 18

/-- Default value of the `toothHeight` prop in `Sidebar/User.tsx`. -/
def toothHeightDefault : ℚ := 5

/-- Source: `const rawTeeth = width > 0 ? Math.max(4, Math.round(width / toothSize)) : 20;` -/
def rawTeeth (width toothSize : ℚ) : Option ℤ :=
  if 0 < width then (jsDiv width toothSize).map (fun q => jsMax 4 (jsRound q))
  else some 20

/-- Source: `const teeth = rawTeeth % 2 === 0 ? rawTeeth : rawTeeth + 1;` -/
def teeth (width toothSize : ℚ) : Option ℤ :=
  (rawTeeth width toothSize).map evenUp

/-- Source: `const numPoints = teeth * 2 + 1;` -/
def numPoints (width toothSize : ℚ) : Option ℤ :=
  (teeth width toothSize).map (fun t => t * 2 + 1)

/-- Source: `const spacing = width / (numPoints - 1);` -/
def spacing (width toothSize : ℚ) : Option ℚ :=
  (numPoints width toothSize).bind (fun n => jsDiv width ((n : ℚ) - 1))

/-- The `top` zigzag samples of the sidebar copy. -/
def topPoints (width toothSize toothHeight : ℚ) : Option (List (ℚ × ℚ)) :=
  (numPoints width toothSize).bind fun n =>
  (spacing width toothSize).map fun s =>
    (List.range n.toNat).map fun i : ℕ =>
      ((i : ℚ) * s, if i % 2 = 0 then toothHeight else 0)

/-- The `bottom` zigzag samples of the sidebar copy. -/
def bottomPoints (width height toothSize toothHeight : ℚ) :
    Option (List (ℚ × ℚ)) :=
  (numPoints width toothSize).bind fun n =>
  (spacing width toothSize).map fun s =>
    (List.range n.toNat).map fun i : ℕ =>
      (width - (i : ℚ) * s, if i % 2 = 0 then height - toothHeight else height)

/-- The token sequence of the `points` string of the sidebar copy. -/
def points (width height toothSize toothHeight : ℚ) :
    Option (List (ℚ × ℚ)) :=
  (topPoints width toothSize toothHeight).bind fun top =>
  (bottomPoints width height toothSize toothHeight).map fun bottom =>
    (0, 0) :: (top ++ [(width, 0), (width, height)] ++ bottom ++ [(0, height)])

end SidebarUser

/-! The simpler top-only variant `Common/ReceiptCardTop.tsx`: fixed
`teeth = 50`, viewBox `0 0 100 100`, samples
``(i / teeth) * 100, i % 2 === 0 ? 2 : 0`` for `i = 0..49`, and polygon
``'0,2 ${top} 100,2 100,100 0,100'``. -/
namespace ReceiptCardTop

/-- Source: `const teeth = 50;` -/
def teeth : ℕ := 50

/-- The `top` samples of `ReceiptCardTop`. -/
def top : List (ℚ × ℚ) :=
  (List.range teeth).map fun i : ℕ =>
    ((i : ℚ) / (teeth : ℚ) * 100, if i % 2 = 0 then 2 else 0)

/-- The token sequence of the polygon of `ReceiptCardTop`. -/
def polygon : List (ℚ × ℚ) :=
  (0, 2) :: (top ++ [(100, 2), (100, 100), (0, 100)])

end ReceiptCardTop

/-! Helper lemmas about sampled lists. -/

lemma head_range_map {α : Type} (m : ℕ) (f : ℕ → α) :
    ((List.range (m + 1)).map f).head? = some (f 0) := by
  rw [List.range_succ_eq_map]
  simp

lemma getLast_range_map {α : Type} (m : ℕ) (f : ℕ → α) :
    ((List.range (m + 1)).map f).getLast? = some (f m) := by
  have h : List.range (m + 1) = List.range m ++ [m] := List.range_succ m
  rw [h, List.map_append]
  rw [show List.map f [m] = [f m] from rfl, List.getLast?_concat]

/-! Basic lemmas about the arithmetic helpers. -/

lemma ratFloor_eq_intFloor (q : ℚ) : q.floor = ⌊q⌋ := by
  rw [Rat.floor_def, Rat.floor_def']

lemma jsRound_eq (q : ℚ) : jsRound q = ⌊q + 1 / 2⌋ := by
  rw [jsRound, ratFloor_eq_intFloor]

lemma jsMax_eq (a b : ℤ) : jsMax a b = max a b := by
  rw [jsMax, max_def]

lemma evenUp_even (r : ℤ) : evenUp r % 2 = 0 := by
  rw [evenUp]; split <;> omega

lemma le_evenUp (r : ℤ) : r ≤ evenUp r := by
  rw [evenUp]; split <;> omega

lemma evenUp_le (r : ℤ) : evenUp r ≤ r + 1 := by
  rw [evenUp]; split <;> omega

namespace ReceiptCard

lemma teeth_of_pos {w ts : ℚ} (hw : 0 < w) (hts : ts ≠ 0) :
    teeth w ts = some (evenUp (jsMax 4 (jsRound (w / ts)))) := by
  simp [teeth, rawTeeth, jsDiv, hw, hts]

lemma teeth_ge_four {w ts : ℚ} (hw : 0 < w) (hts : ts ≠ 0) :
    ∃ t : ℤ, teeth w ts = some t ∧ t % 2 = 0 ∧ 4 ≤ t := by
  refine ⟨evenUp (jsMax 4 (jsRound (w / ts))), teeth_of_pos hw hts,
    evenUp_even _, ?_⟩
  have h4 : 4 ≤ jsMax 4 (jsRound (w / ts)) := by rw [jsMax_eq]; exact le_max_left _ _
  exact le_trans h4 (le_evenUp _)

/-- Structural description of the whole pipeline for a positive width and a
nonzero tooth size: there is a natural tooth count `k`, even and at least 4,
such that every stage is defined and has its closed form. -/
lemma gen_eq {w ts : ℚ} (h hgt : ℚ) (hw : 0 < w) (hts : ts ≠ 0) :
    ∃ k : ℕ, 4 ≤ k ∧ k % 2 = 0 ∧
      teeth w ts = some (k : ℤ) ∧
      numPoints w ts = some ((k : ℤ) * 2 + 1) ∧
      spacing w ts = some (w / (2 * k)) ∧
      topPoints w ts hgt = some ((List.range (2 * k + 1)).map fun i : ℕ =>
        ((i : ℚ) * (w / (2 * k)), if i % 2 = 0 then hgt else 0)) ∧
      bottomPoints w h ts hgt = some ((List.range (2 * k + 1)).map fun i : ℕ =>
        (w - (i : ℚ) * (w / (2 * k)), if i % 2 = 0 then h - hgt else h)) := by
  obtain ⟨t, hteq, hteven, htge⟩ := teeth_ge_four hw hts
  obtain ⟨k, rfl⟩ : ∃ k : ℕ, t = (k : ℤ) := ⟨t.toNat, by omega⟩
  have hcast : (((k : ℤ) * 2 + 1 : ℤ) : ℚ) - 1 = 2 * (k : ℚ) := by
    push_cast; ring
  have hne : (((k : ℤ) * 2 + 1 : ℤ) : ℚ) - 1 ≠ 0 := by
    rw [hcast]
    have h4 : (4 : ℚ) ≤ (k : ℚ) := by exact_mod_cast (by omega : (4 : ℤ) ≤ (k : ℤ))
    positivity
  have htn : ((k : ℤ) * 2 + 1).toNat = 2 * k + 1 := by omega
  have hsp : spacing w ts = some (w / (2 * (k : ℚ))) := by
    rw [spacing, numPoints, hteq, Option.map_some', Option.some_bind, jsDiv,
      if_neg hne, hcast]
  refine ⟨k, by omega, by omega, hteq, ?_, hsp, ?_, ?_⟩
  · rw [numPoints, hteq, Option.map_some']
  · rw [topPoints, numPoints, hteq, Option.map_some', Option.some_bind, hsp,
      Option.map_some', htn]
  · rw [bottomPoints, numPoints, hteq, Option.map_some', Option.some_bind, hsp,
      Option.map_some', htn]

end ReceiptCard

/-! Claim theorems. -/

/-- Claim C1: For every `width > 0` and `toothSize > 0`, the tooth count computed
by `ReceiptCard` (`max(4, round(width / toothSize))`, incremented by one when
odd) is an even integer and is at least 4. -/
theorem receiptCard_teeth_even_and_ge_four (w ts : ℚ) (hw : 0 < w)
    (hts : 0 < ts) :
    ∃ t : ℤ, ReceiptCard.teeth w ts = some t ∧ t % 2 = 0 ∧ 4 ≤ t :=
  ReceiptCard.teeth_ge_four hw (ne_of_gt hts)

/-- Witness for **C1** at `width = 200`, `toothSize = 10`. -/
theorem receiptCard_teeth_even_and_ge_four_witness :
    0 < (200 : ℚ) ∧ 0 < (10 : ℚ) ∧
      ∃ t : ℤ, ReceiptCard.teeth 200 10 = some t ∧ t % 2 = 0 ∧ 4 ≤ t :=
  ⟨by norm_num, by norm_num,
    receiptCard_teeth_even_and_ge_four 200 10 (by norm_num) (by norm_num)⟩

/-- Claim C3: For every `width > 0`, `height > 0`, `toothSize > 0` and any
`toothHeight`: `numPoints` is odd, the first and last sampled points of the top
zigzag both have `y = toothHeight`, and the first and last sampled points of
the bottom zigzag both have `y = height - toothHeight`. -/
theorem receiptCard_edges_are_valleys (w h ts th : ℚ) (hw : 0 < w)
    (hh : 0 < h) (hts : 0 < ts) :
    ∃ (n : ℤ) (lt lb : List (ℚ × ℚ)),
      ReceiptCard.numPoints w ts = some n ∧ n % 2 = 1 ∧
      ReceiptCard.topPoints w ts th = some lt ∧
      ReceiptCard.bottomPoints w h ts th = some lb ∧
      lt.head?.map Prod.snd = some th ∧
      lt.getLast?.map Prod.snd = some th ∧
      lb.head?.map Prod.snd = some (h - th) ∧
      lb.getLast?.map Prod.snd = some (h - th) := by
  obtain ⟨k, hk4, hkeven, hteeth, hnum, hsp, htop, hbot⟩ :=
    ReceiptCard.gen_eq h th hw (ne_of_gt hts)
  refine ⟨(k : ℤ) * 2 + 1, _, _, hnum, by omega, htop, hbot, ?_, ?_, ?_, ?_⟩
  · rw [head_range_map]
    simp
  · rw [getLast_range_map]
    simp [Nat.mul_mod_right]
  · rw [head_range_map]
    simp
  · rw [getLast_range_map]
    simp [Nat.mul_mod_right]

/-- Witness for **C3** at `width = 200`, `height = 50`, `toothSize = 10`,
`toothHeight = 3`. -/
theorem receiptCard_edges_are_valleys_witness :
    0 < (200 : ℚ) ∧ 0 < (50 : ℚ) ∧ 0 < (10 : ℚ) ∧
      ∃ (n : ℤ) (lt lb : List (ℚ × ℚ)),
        ReceiptCard.numPoints 200 10 = some n ∧ n % 2 = 1 ∧
        ReceiptCard.topPoints 200 10 3 = some lt ∧
        ReceiptCard.bottomPoints 200 50 10 3 = some lb ∧
        lt.head?.map Prod.snd = some 3 ∧
        lt.getLast?.map Prod.snd = some 3 ∧
        lb.head?.map Prod.snd = some (50 - 3) ∧
        lb.getLast?.map Prod.snd = some (50 - 3) :=
  ⟨by norm_num, by norm_num, by norm_num,
    receiptCard_edges_are_valleys 200 50 10 3 (by norm_num) (by norm_num)
      (by norm_num)⟩

/-- Claim C7: The path generation is a pure function of its four inputs: in the
embedding the generator is a function, so two evaluations at the same tuple
`(width, height, toothSize, toothHeight)` are definitionally the same token
sequence; there is no hidden state for it to depend on. -/
theorem receiptCard_points_pure (w h ts th : ℚ) :
    ReceiptCard.points w h ts th = ReceiptCard.points w h ts th := rfl

/-- Claim C9: The duplicated generator embedded in `Sidebar/User.tsx` computes,
stage by stage, exactly the same values as the canonical generator of
`Common/ReceiptCard.tsx` on every input tuple; the two call sites differ only
in their default prop values (`toothSize` 18 vs 10, `toothHeight` 5 vs 3). -/
theorem sidebar_generator_equals_canonical :
    (∀ w ts, SidebarUser.teeth w ts = ReceiptCard.teeth w ts) ∧
    (∀ w ts, SidebarUser.numPoints w ts = ReceiptCard.numPoints w ts) ∧
    (∀ w ts, SidebarUser.spacing w ts = ReceiptCard.spacing w ts) ∧
    (∀ w ts th, SidebarUser.topPoints w ts th = ReceiptCard.topPoints w ts th) ∧
    (∀ w h ts th,
      SidebarUser.bottomPoints w h ts th = ReceiptCard.bottomPoints w h ts th) ∧
    (∀ w h ts th,
      SidebarUser.points w h ts th = ReceiptCard.points w h ts th) ∧
    SidebarUser.toothSizeDefault = 18 ∧ SidebarUser.toothHeightDefault = 5 ∧
    ReceiptCard.toothSizeDefault = 10 ∧ ReceiptCard.toothHeightDefault = 3 :=
  ⟨fun _ _ => rfl, fun _ _ => rfl, fun _ _ => rfl, fun _ _ _ => rfl,
    fun _ _ _ _ => rfl, fun _ _ _ _ => rfl, rfl, rfl, rfl, rfl⟩

/-- Claim C2: Concrete end-to-end scenario `width=200, height=50, toothSize=10,
toothHeight=3`: `teeth = 20`, `numPoints = 41`, `spacing = 5`, the top edge
samples are `(5*i, 3)` at even `i` and `(5*i, 0)` at odd `i` for
`i = 0..40` (so `x = 0,5,…,200`), the bottom edge mirrors from `x = 200`
down to `x = 0` with `y` alternating `47` and `50`, and the resulting points
string has exactly `41 + 41 + 4 = 86` coordinate tokens. -/
theorem receiptCard_example_200_50 :
    ReceiptCard.teeth 200 10 = some 20 ∧
    ReceiptCard.numPoints 200 10 = some 41 ∧
    ReceiptCard.spacing 200 10 = some 5 ∧
    ReceiptCard.topPoints 200 10 3 =
      some ((List.range 41).map fun i : ℕ =>
        ((i : ℚ) * 5, if i % 2 = 0 then 3 else 0)) ∧
    ReceiptCard.bottomPoints 200 50 10 3 =
      some ((List.range 41).map fun i : ℕ =>
        (200 - (i : ℚ) * 5, if i % 2 = 0 then 47 else 50)) ∧
    ∃ l : List (ℚ × ℚ), ReceiptCard.points 200 50 10 3 = some l ∧
      l.length = 86 := by
  have h20 : jsRound ((200 : ℚ) / 10) = 20 := by
    rw [jsRound_eq, show ((200 : ℚ) / 10 + 1 / 2) = 41 / 2 by norm_num,
      Int.floor_eq_iff]
    norm_num
  have hteeth : ReceiptCard.teeth 200 10 = some 20 := by
    rw [ReceiptCard.teeth_of_pos (by norm_num) (by norm_num), h20]
    norm_num [jsMax, evenUp]
  have hnum : ReceiptCard.numPoints 200 10 = some 41 := by
    rw [ReceiptCard.numPoints, hteeth]; rfl
  have hsp : ReceiptCard.spacing 200 10 = some 5 := by
    rw [ReceiptCard.spacing, hnum, Option.some_bind, jsDiv,
      if_neg (by norm_num : ¬(((41 : ℤ) : ℚ) - 1 = 0))]
    norm_num
  have htop : ReceiptCard.topPoints 200 10 3 =
      some ((List.range 41).map fun i : ℕ =>
        ((i : ℚ) * 5, if i % 2 = 0 then 3 else 0)) := by
    rw [ReceiptCard.topPoints, hnum, Option.some_bind, hsp, Option.map_some']
    rfl
  have hbot : ReceiptCard.bottomPoints 200 50 10 3 =
      some ((List.range 41).map fun i : ℕ =>
        (200 - (i : ℚ) * 5, if i % 2 = 0 then 47 else 50)) := by
    rw [ReceiptCard.bottomPoints, hnum, Option.some_bind, hsp, Option.map_some']
    congr 1
    apply List.map_congr_left
    intro i _
    split_ifs <;> norm_num
  refine ⟨hteeth, hnum, hsp, htop, hbot,
    (0, 0) :: (((List.range 41).map fun i : ℕ =>
        ((i : ℚ) * 5, if i % 2 = 0 then 3 else 0)) ++
      [(200, 0), (200, 50)] ++
      ((List.range 41).map fun i : ℕ =>
        (200 - (i : ℚ) * 5, if i % 2 = 0 then 47 else 50)) ++ [(0, 50)]),
    ?_, ?_⟩
  · rw [ReceiptCard.points, htop, Option.some_bind, hbot, Option.map_some']
  · simp [List.length_append]

/-- Claim C5: For `width = 0` (any `height`, `toothSize`, `toothHeight`) the
path generation is defined end to end — no division is `0/0`, so no token of
the points string is `NaN` (in the embedding: the pipeline returns `some`,
every token a finite rational pair): the tooth count falls back to the
constant `20`, `spacing` evaluates to `0`, and the token count is `86`. -/
theorem receiptCard_zero_width_defined (h ts th : ℚ) :
    ReceiptCard.teeth 0 ts = some 20 ∧
    ReceiptCard.spacing 0 ts = some 0 ∧
    ∃ l : List (ℚ × ℚ), ReceiptCard.points 0 h ts th = some l ∧
      l.length = 86 := by
  have hteeth : ReceiptCard.teeth 0 ts = some 20 := by
    rw [ReceiptCard.teeth, ReceiptCard.rawTeeth, if_neg (lt_irrefl (0 : ℚ)),
      Option.map_some']
    rfl
  have hnum : ReceiptCard.numPoints 0 ts = some 41 := by
    rw [ReceiptCard.numPoints, hteeth]; rfl
  have hsp : ReceiptCard.spacing 0 ts = some 0 := by
    rw [ReceiptCard.spacing, hnum, Option.some_bind, jsDiv,
      if_neg (by norm_num : ¬(((41 : ℤ) : ℚ) - 1 = 0))]
    norm_num
  have htop : ReceiptCard.topPoints 0 ts th =
      some ((List.range 41).map fun i : ℕ =>
        ((i : ℚ) * 0, if i % 2 = 0 then th else 0)) := by
    rw [ReceiptCard.topPoints, hnum, Option.some_bind, hsp, Option.map_some']
    rfl
  have hbot : ReceiptCard.bottomPoints 0 h ts th =
      some ((List.range 41).map fun i : ℕ =>
        (0 - (i : ℚ) * 0, if i % 2 = 0 then h - th else h)) := by
    rw [ReceiptCard.bottomPoints, hnum, Option.some_bind, hsp, Option.map_some']
    rfl
  refine ⟨hteeth, hsp,
    (0, 0) :: (((List.range 41).map fun i : ℕ =>
        ((i : ℚ) * 0, if i % 2 = 0 then th else 0)) ++
      [(0, 0), (0, h)] ++
      ((List.range 41).map fun i : ℕ =>
        (0 - (i : ℚ) * 0, if i % 2 = 0 then h - th else h)) ++ [(0, h)]),
    ?_, ?_⟩
  · rw [ReceiptCard.points, htop, Option.some_bind, hbot, Option.map_some']
  · simp [List.length_append]

/-- Claim C6: The mask is defined (a data URI embedding the polygon) if and
only if both `width > 0` and `height > 0`; whenever `width ≤ 0` or
`height ≤ 0` no mask is applied.  (`toothSize > 0` is the component's input
contract; the defaults are 10 and 18.) -/
theorem receiptCard_mask_iff_positive_dims (w h ts th : ℚ) (hts : 0 < ts) :
    (ReceiptCard.mask w h ts th).isSome = true ↔ (0 < w ∧ 0 < h) := by
  rw [ReceiptCard.mask]
  by_cases hc : 0 < w ∧ 0 < h
  · rw [if_pos hc]
    obtain ⟨k, _, _, _, _, _, htop, hbot⟩ :=
      ReceiptCard.gen_eq h th hc.1 (ne_of_gt hts)
    rw [ReceiptCard.points, htop, Option.some_bind, hbot, Option.map_some']
    simpa using hc
  · rw [if_neg hc]
    simpa using hc

/-- Witness for **C6** at `toothSize = 10`, `width = 200`, `height = 50`. -/
theorem receiptCard_mask_iff_positive_dims_witness :
    0 < (10 : ℚ) ∧
      ((ReceiptCard.mask 200 50 10 3).isSome = true ↔
        (0 < (200 : ℚ) ∧ 0 < (50 : ℚ))) :=
  ⟨by norm_num, receiptCard_mask_iff_positive_dims 200 50 10 3 (by norm_num)⟩

/-- Claim C8: Doubling the width while holding the tooth size fixed
approximately doubles the tooth count: the difference between
`teeth(2*width)` and `2 * teeth(width)` is at most `4`, the exact worst case
of the three error sources the claim names (nearest-integer rounding of the
doubled quotient contributes `±1`, rounding up to even contributes `+1`
after doubling and `+2` doubled, and the `max(4, ·)` floor caps the small
cases). -/
theorem receiptCard_teeth_doubling (w ts : ℚ) (hw : 0 < w) (hts : 0 < ts) :
    ∃ t₁ t₂ : ℤ, ReceiptCard.teeth w ts = some t₁ ∧
      ReceiptCard.teeth (2 * w) ts = some t₂ ∧ |t₂ - 2 * t₁| ≤ 4 := by
  have hts' := ne_of_gt hts
  have h2q : (2 * w) / ts = 2 * (w / ts) := by ring
  have ht1 := ReceiptCard.teeth_of_pos hw hts'
  have ht2 := ReceiptCard.teeth_of_pos (by linarith : 0 < 2 * w) hts'
  rw [h2q] at ht2
  refine ⟨_, _, ht1, ht2, ?_⟩
  rw [jsRound_eq, jsRound_eq]
  have hfa : (⌊w / ts + 1 / 2⌋ : ℚ) ≤ w / ts + 1 / 2 := Int.floor_le _
  have hfb : w / ts + 1 / 2 < ⌊w / ts + 1 / 2⌋ + 1 := Int.lt_floor_add_one _
  have hlow : 2 * ⌊w / ts + 1 / 2⌋ - 1 ≤ ⌊2 * (w / ts) + 1 / 2⌋ := by
    apply Int.le_floor.mpr
    push_cast
    linarith
  have hhigh : ⌊2 * (w / ts) + 1 / 2⌋ < 2 * ⌊w / ts + 1 / 2⌋ + 2 := by
    apply Int.floor_lt.mpr
    push_cast
    linarith
  have hnn : 0 ≤ ⌊w / ts + 1 / 2⌋ := by
    apply Int.le_floor.mpr
    have : 0 < w / ts := div_pos hw hts
    push_cast
    linarith
  rw [abs_le]
  constructor <;> (unfold evenUp jsMax; split_ifs <;> omega)

/-- Witness for **C8** at `width = 10`, `toothSize = 3`. -/
theorem receiptCard_teeth_doubling_witness :
    0 < (10 : ℚ) ∧ 0 < (3 : ℚ) ∧
      ∃ t₁ t₂ : ℤ, ReceiptCard.teeth 10 3 = some t₁ ∧
        ReceiptCard.teeth (2 * 10) 3 = some t₂ ∧ |t₂ - 2 * t₁| ≤ 4 :=
  ⟨by norm_num, by norm_num,
    receiptCard_teeth_doubling 10 3 (by norm_num) (by norm_num)⟩

/-- Claim C10: The `ReceiptCardTop` variant does not satisfy the
corner-continuity property of the main generator: with its fixed
`teeth = 50` it samples exactly 50 points, its last zigzag sample is
`(98, 0)` — a peak, not the valley height `2` — the zigzag's x-coordinates
never reach `100`, and the right corner is instead closed by the separate
explicit token `100,2` of the polygon string. -/
theorem receiptCardTop_no_corner_continuity :
    ReceiptCardTop.top.length = 50 ∧
    ReceiptCardTop.top.getLast? = some (98, 0) ∧
    ReceiptCardTop.top.getLast?.map Prod.snd ≠ some 2 ∧
    (∀ p ∈ ReceiptCardTop.top, p.1 ≤ 98) ∧
    (100, 2) ∈ ReceiptCardTop.polygon := by
  have hlast : ReceiptCardTop.top.getLast? = some (98, 0) := by
    rw [ReceiptCardTop.top, ReceiptCardTop.teeth,
      show (50 : ℕ) = 49 + 1 from rfl, getLast_range_map]
    norm_num
  refine ⟨?_, hlast, ?_, ?_, ?_⟩
  · rw [ReceiptCardTop.top]
    simp [ReceiptCardTop.teeth]
  · rw [hlast]
    simp only [Option.map_some']
    intro hcontra
    have : (0 : ℚ) = 2 := by
      have := Option.some.inj hcontra
      simpa using this
    norm_num at this
  · intro p hp
    rw [ReceiptCardTop.top] at hp
    obtain ⟨i, hi, rfl⟩ := List.mem_map.mp hp
    have hilt : i < 50 := List.mem_range.mp hi
    have hile : (i : ℚ) ≤ 49 := by exact_mod_cast (by omega : i ≤ 49)
    have hx : (i : ℚ) / (ReceiptCardTop.teeth : ℚ) * 100 = (i : ℚ) * 2 := by
      rw [ReceiptCardTop.teeth]
      push_cast
      ring
    show (i : ℚ) / (ReceiptCardTop.teeth : ℚ) * 100 ≤ 98
    rw [hx]
    linarith
  · rw [ReceiptCardTop.polygon]
    exact List.mem_cons_of_mem _ (List.mem_append_right _
      (List.mem_cons_self _ _))
